import Mathlib

/-!
Shallow embedding of the record-cleaning pipeline of `src/main.py`
(a FastAPI service that loads a tabular "site diary" export, cleans it,
and emits an accepted and a rejected record set).

Modelling conventions:
* A pandas cell is `Cell := Option String`: `none` is NaN/missing, `some s`
  is the textual content.  `astype(str)` renders NaN as the string "nan"
  (pandas behaviour), captured by `textForm`.
* A DataFrame row over the nine required columns is a structure; pandas
  `merge` and `drop_duplicates` treat NaN keys as equal to each other,
  which matches ordinary decidable equality on `Option String`.
* The loader's three decoders are pandas/openpyxl calls; they are passed
  in as their outcomes (`Except String Table`), and the control flow of
  `load_file` over them is embedded exactly.
* Time is `Nat` seconds; the comparison `now - mtime > 600` with floats
  agrees with truncated `Nat` subtraction at every reachable state
  (whenever `mtime ≤ now`, and both keep the file when `mtime > now`).
-/

namespace SiteDiary

/-- A single table cell: `none` models pandas NaN/None, `some s` a string
value.  (Numeric cells enter the modelled stages only via `astype(str)`,
so their textual form is all that matters.) -/
abbrev Cell := Option String

/-- `astype(str)` on a cell: pandas renders NaN as the string "nan". -/
def textForm : Cell → String
  | none => "nan"
  | some s => s

/-- The truthy set of `main.py` lines 118-119: `["true", "1", "yes"]`. -/
def truthyValues : List String := ["true", "1", "yes"]

/-- Python `str.lower` (pandas `.str.lower()`): lowercase each character. -/
def lowerStr (s : String) : String :=
  String.mk (s.data.map Char.toLower)

/-- Flag parsing of `main.py` lines 118-119:
`df[col].astype(str).str.lower().isin(["true", "1", "yes"])`. -/
def parseFlag (c : Cell) : Bool :=
  lowerStr (textForm c) ∈ truthyValues

/-- One loaded row, restricted to the nine required columns (in the order
of `required_cols`, `main.py` lines 109-112). -/
structure RawRow where
  ignoreEntry : Cell
  internalUseOnly : Cell
  description : Cell
  category : Cell
  fromTime : Cell
  untilTime : Cell
  ring : Cell
  shift : Cell
  duration : Cell
deriving DecidableEq, Repr

/-- A row after the flag columns have been overwritten with booleans
(`main.py` lines 118-119). -/
structure NRow where
  ignoreEntry : Bool
  internalUseOnly : Bool
  description : Cell
  category : Cell
  fromTime : Cell
  untilTime : Cell
  ring : Cell
  shift : Cell
  duration : Cell
deriving DecidableEq, Repr

/-- Lines 118-119: overwrite the two flag columns with parsed booleans. -/
def convertFlags (r : RawRow) : NRow :=
  { ignoreEntry := parseFlag r.ignoreEntry
    internalUseOnly := parseFlag r.internalUseOnly
    description := r.description
    category := r.category
    fromTime := r.fromTime
    untilTime := r.untilTime
    ring := r.ring
    shift := r.shift
    duration := r.duration }

/-- The Record Normalizer stage, `main.py` lines 118-123: convert flags,
drop rows with a true flag (line 122), then
`dropna(subset=["Description", "Category"])` (line 123).  `dropna` removes
only missing (NaN) values, i.e. `none` cells. -/
def normalize (rs : List RawRow) : List NRow :=
  (((rs.map convertFlags).filter
      (fun r => !r.ignoreEntry && !r.internalUseOnly)).filter
    (fun r => r.description.isSome && r.category.isSome))

/-- The five-column composite key of `drop_duplicates(subset=...)`,
`main.py` line 127. -/
abbrev DedupKey := Cell × Cell × Cell × Cell × Cell

def dedupKey (r : NRow) : DedupKey :=
  (r.fromTime, r.untilTime, r.ring, r.category, r.description)

/-- `drop_duplicates(subset=key)` with the default `keep="first"`: keep a
row iff its key has not been seen earlier in the list. -/
def dedupAux (seen : List DedupKey) : List NRow → List NRow
  | [] => []
  | r :: rs =>
    if dedupKey r ∈ seen then dedupAux seen rs
    else r :: dedupAux (dedupKey r :: seen) rs

/-- `main.py` line 127. -/
def drop_duplicates (rs : List NRow) : List NRow := dedupAux [] rs

/-- The complement computation of `main.py` lines 128-132:
`pd.merge(df_before_dedup, df, how="outer", indicator=True)` joins on all
common columns, i.e. on the full row; a left row is tagged `left_only`
(and survives the `query`) iff no row of `df` equals it in every column,
and each such left row appears once per occurrence. -/
def filteredOutOf (before after : List NRow) : List NRow :=
  before.filter (fun r => !(decide (r ∈ after)))

/-- `df["Category"].value_counts()[c]`: the number of rows of `rows`
whose `Category` equals `c`.  (After `dropna` no category is NaN, so
`value_counts` excluding NaN agrees with plain counting.) -/
def catCount (rows : List NRow) (c : Cell) : Nat :=
  (rows.filter (fun r => decide (r.category = c))).length

/-- The distinct `Category` values of a row list (the index of
`value_counts`; the frequency ordering of that index is irrelevant to the
claims and not modelled). -/
def distinctCategories (rows : List NRow) : List Cell :=
  (rows.map (fun r => r.category)).dedup

/-- `main.py` line 136: categories with `count >= 2`. -/
def valid_classes (rows : List NRow) : List Cell :=
  (distinctCategories rows).filter (fun c => decide (2 ≤ catCount rows c))

/-- `main.py` line 138: categories with `count < 2`. -/
def filtered_out_classes (rows : List NRow) : List Cell :=
  (distinctCategories rows).filter (fun c => decide (catCount rows c < 2))

/-- `main.py` line 137: `df[df["Category"].isin(valid_classes)]`. -/
def pruneCategories (rows : List NRow) : List NRow :=
  rows.filter (fun r => decide (r.category ∈ valid_classes rows))

/-- `str.extract(r"^(Day|Night)", expand=False)`, `main.py` line 141:
the regex anchors at the start and tries the alternatives in order, so it
returns "Day" when the string starts with "Day", else "Night" when it
starts with "Night", else NaN. -/
def strStarts (p s : String) : Bool :=
  p.data.isPrefixOf s.data

def shiftTypeOf (s : String) : Option String :=
  if strStarts "Day" s then some "Day"
  else if strStarts "Night" s then some "Night"
  else none

/-- `str.extract(r"(\d+)")`, `main.py` line 143: the first maximal run of
decimal digits of the string, or `none` when the string has no digit. -/
def firstDigitRun (s : String) : Option (List Char) :=
  match s.data.dropWhile (fun ch => !ch.isDigit) with
  | [] => none
  | ch :: rest => some ((ch :: rest).takeWhile Char.isDigit)

/-- Value of a digit string, as parsed by `pd.to_numeric` (the run is
nonempty and all digits, so `errors="coerce"` never actually coerces). -/
def digitsVal (l : List Char) : Nat :=
  l.foldl (fun n ch => 10 * n + (ch.toNat - '0'.toNat)) 0

/-- `main.py` lines 142-144 applied to one textual duration value:
numeric value of the first digit run, or `none` (NaN) if there is none.
Total by construction: malformed text yields `none`, never an error.
(`to_numeric` returns floats; the run is a digit string so its value is
the natural number `digitsVal` with a zero fractional part.) -/
def durationMinOf (s : String) : Option Nat :=
  (firstDigitRun s).map digitsVal

/-- A row after the Field Deriver stage (`main.py` lines 141-144) has two
extra columns appended. -/
structure DRow extends NRow where
  shiftType : Option String
  durationMin : Option Nat
deriving DecidableEq, Repr

/-- `main.py` lines 141-144 on one surviving row: both derivations read
the `astype(str)` form of the source cell. -/
def deriveRow (r : NRow) : DRow :=
  { r with
    shiftType := shiftTypeOf (textForm r.shift)
    durationMin := durationMinOf (textForm r.duration) }

/-! ### Serialization (Output Manager), `main.py` lines 150-156 -/

/-- A field of `DataFrame.to_csv` output: quoted (with internal quotes
doubled) iff it holds the delimiter, a quote, or a line break
(csv `QUOTE_MINIMAL`). -/
def csvField (s : String) : String :=
  if s.data.any (fun ch => ch = ',' || ch = '"' || ch = '\n' || ch = '\r') then
    "\"" ++ String.mk (s.data.flatMap (fun ch => if ch = '"' then ['"', '"'] else [ch])) ++ "\""
  else s

/-- to_csv rendering of a cell after the `replace({np.nan: None})` of
line 147: `None` becomes the empty field. -/
def cellFieldStr : Cell → String
  | none => ""
  | some s => s

/-- to_csv rendering of a pandas boolean. -/
def boolFieldStr : Bool → String
  | true => "True"
  | false => "False"

/-- to_csv rendering of the float-typed `Duration_min` column: a digit
run parsed by `to_numeric` is a float with zero fractional part. -/
def numFieldStr : Option Nat → String
  | none => ""
  | some n => toString n ++ ".0"

/-- One to_csv line: comma-joined quoted fields plus the default line
terminator. -/
def csvLine (fields : List String) : String :=
  String.intercalate "," (fields.map csvField) ++ "\n"

/-- to_csv of a header and a list of row field lists (`index=False`). -/
def csvString (header : List String) (rows : List (List String)) : String :=
  csvLine header ++ String.join (rows.map csvLine)

/-- `required_cols` of `main.py` lines 109-112; also the column order of
the modelled tables. -/
def required_cols : List String :=
  ["Ignore Entry", "Internal Use Only", "Description",
   "Category", "From", "Until", "Ring", "Shift", "Duration"]

def nrowFields (r : NRow) : List String :=
  [boolFieldStr r.ignoreEntry, boolFieldStr r.internalUseOnly,
   cellFieldStr r.description, cellFieldStr r.category,
   cellFieldStr r.fromTime, cellFieldStr r.untilTime,
   cellFieldStr r.ring, cellFieldStr r.shift, cellFieldStr r.duration]

def drowFields (r : DRow) : List String :=
  nrowFields r.toNRow ++
    [cellFieldStr r.shiftType, numFieldStr r.durationMin]

/-- Content of the cleaned artifact, `main.py` line 152:
`df.to_csv(index=False, encoding="utf-8-sig").encode()`.  With no path
argument `to_csv` returns a `str` and its `encoding` parameter is
ignored; `.encode()` then produces plain UTF-8 bytes, so the content is
exactly this string (in particular it carries no byte-order mark). -/
def cleanedContent (rows : List DRow) : String :=
  csvString (required_cols ++ ["Shift_Type", "Duration_min"]) (rows.map drowFields)

/-- Content of the filtered-out artifact, `main.py` line 155: built from
`filtered_out_df`, which was computed at lines 128-132, before the
derived columns were added to `df`, so its header has only the original
columns. -/
def filteredContent (rows : List NRow) : String :=
  csvString required_cols (rows.map nrowFields)

/-! ### Source Loader, `main.py` lines 69-99 -/

/-- A loaded table: its column names (for the required-column check) and
its rows viewed through the nine required columns. -/
structure Table where
  cols : List String
  rows : List RawRow
deriving Repr

/-- The decoder cascade of `load_file`, `main.py` lines 76-99.  The three
arguments are the outcomes of attempting, on the fetched byte content,
(1) `pd.read_excel(..., engine="openpyxl")`,
(2) `pd.read_csv(..., encoding="utf-8", on_bad_lines="skip")`,
(3) `pd.read_csv(..., encoding="ISO-8859-1", on_bad_lines="skip")`;
the code returns the first that did not raise and raises
`ValueError(f"Unsupported or unreadable file format from: {file_url}")`
when all three failed. -/
def load_file (excelRes utf8Res latinRes : Except String Table)
    (file_url : String) : Except String Table :=
  match excelRes with
  | .ok df => .ok df
  | .error _ =>
    match utf8Res with
    | .ok df => .ok df
    | .error _ =>
      match latinRes with
      | .ok df => .ok df
      | .error _ =>
        .error ("Unsupported or unreadable file format from: " ++ file_url)

/-! ### Core pipeline, `main.py` lines 105-172 -/

/-- A single quote character, as Python `repr` uses around strings. -/
def pyQuote : String := "\x27"

/-- Python `f"Missing required columns: {missing_cols}"` with
`missing_cols` a list of strings, `main.py` line 115. -/
def missingColsMsg (names : List String) : String :=
  "Missing required columns: [" ++
    String.intercalate ", " (names.map (fun n => pyQuote ++ n ++ pyQuote)) ++ "]"

/-- `main.py` line 113: `[c for c in required_cols if c not in df.columns]`. -/
def missingColsOf (cols : List String) : List String :=
  required_cols.filter (fun c => !(decide (c ∈ cols)))

/-- A file written to the scratch directory by `save_temp_file`
(`main.py` lines 52-58): its suffix tag and its content string (the
bytes are the UTF-8 encoding of the string; the UUID name part is
opaque randomness, not modelled). -/
structure Artifact where
  suffix : String
  content : String
deriving DecidableEq, Repr

/-- The successful result dictionary of `process_site_diary`,
`main.py` lines 163-172. -/
structure Output where
  num_cleaned_rows : Nat
  num_filtered_rows : Nat
  categories_retained : List Cell
  categories_removed : List Cell
  cleaned_df_dict : List DRow
  filtered_out_df_dict : List NRow
deriving Repr

/-- `process_site_diary`, `main.py` lines 105-172, with the scratch
directory's artifact list passed as explicit state.  `loadRes` is the
outcome of `load_file` at line 106.  An uncaught `ValueError` is the
`Except.error` branch; it propagates before any later statement runs, so
the state is returned unchanged on every error path. -/
def process_site_diary (loadRes : Except String Table)
    (store : List Artifact) : Except String Output × List Artifact :=
  match loadRes with
  | .error e => (.error e, store)
  | .ok t =>
    let missing := missingColsOf t.cols
    if missing ≠ [] then
      (.error (missingColsMsg missing), store)
    else
      let n := normalize t.rows
      let ded := drop_duplicates n
      let fOut := filteredOutOf n ded
      let pruned := pruneCategories ded
      let derived := pruned.map deriveRow
      let a1 : Artifact := ⟨"cleaned", cleanedContent derived⟩
      let a2 : Artifact := ⟨"filtered", filteredContent fOut⟩
      (.ok
        { num_cleaned_rows := derived.length
          num_filtered_rows := fOut.length
          categories_retained := valid_classes ded
          categories_removed := filtered_out_classes ded
          cleaned_df_dict := derived
          filtered_out_df_dict := fOut },
        store ++ [a1, a2])

/-- The body a `/run` response, `main.py` lines 178-204: either the
(JSON-safe) result dictionary, or the structured error dictionary built
in the `except` branch with keys `error`, `file_path`, `exception`. -/
inductive RunResult where
  | ok (out : Output)
  | err (error : String) (file_path : String) (exception : String)
deriving Repr

/-- `run_tool`, `main.py` lines 178-204: run the pipeline, catching every
exception and turning it into the structured error payload; the handler
itself never raises.  (NaN/infinity are already `none` in the model, so
`clean_json` is the identity here.) -/
def run_tool (file_path : String) (loadRes : Except String Table)
    (store : List Artifact) : RunResult × List Artifact :=
  match process_site_diary loadRes store with
  | (.ok out, store') => (.ok out, store')
  | (.error e, store') => (.err "Failed to process file." file_path e, store')

/-! ### Scratch-directory lifecycle, `main.py` lines 20-58 and 210-217 -/

def FILE_LIFETIME_SECONDS : Nat := 600

/-- A file of the scratch directory `TEMP_DIR`: name, modification time
(seconds), content bytes. -/
structure StoredFile where
  name : String
  mtime : Nat
  content : List Nat
deriving DecidableEq, Repr

/-- `cleanup_old_files`, `main.py` lines 43-49: delete every file with
`now - getmtime > FILE_LIFETIME_SECONDS`, keep the rest. -/
def cleanup_old_files (now : Nat) (dir : List StoredFile) : List StoredFile :=
  dir.filter (fun f => !(decide (FILE_LIFETIME_SECONDS < now - f.mtime)))

/-- `download_file`, `main.py` lines 210-217: run the lazy sweep, then
serve the file's bytes if a file of that name exists, else return the
`File not found` payload (`none`); the directory after the request is
the swept one. -/
def download_file (now : Nat) (filename : String)
    (dir : List StoredFile) : Option (List Nat) × List StoredFile :=
  let dir' := cleanup_old_files now dir
  match dir'.find? (fun f => decide (f.name = filename)) with
  | some f => (some f.content, dir')
  | none => (none, dir')

/-! ## Concrete sample data -/

/-- A clean raw row (falsy flags, present Description/Category). -/
def sampleRaw : RawRow :=
  { ignoreEntry := some "no", internalUseOnly := some "0",
    description := some "dig face", category := some "Excavation",
    fromTime := some "08:00", untilTime := some "09:00",
    ring := some "R1", shift := some "Day shift", duration := some "60 min" }

/-- A second clean raw row of the same category, differing in the key. -/
def sampleRaw2 : RawRow :=
  { ignoreEntry := some "", internalUseOnly := none,
    description := some "dig face", category := some "Excavation",
    fromTime := some "09:00", untilTime := some "10:00",
    ring := some "R1", shift := some "Night Shift - extended",
    duration := some "approx 45 mins" }

/-- A clean raw row whose category occurs only once. -/
def sampleRawSingle : RawRow :=
  { ignoreEntry := some "false", internalUseOnly := some "no",
    description := some "pour", category := some "Paving",
    fromTime := some "10:00", untilTime := some "11:00",
    ring := some "R2", shift := some "Morning", duration := some "unspecified" }

/-- A raw row with an empty-string Description and a whitespace-only
Category (both are non-NaN, so `dropna` does not remove them). -/
def emptyDescRaw : RawRow :=
  { ignoreEntry := some "no", internalUseOnly := some "0",
    description := some "", category := some " ",
    fromTime := none, untilTime := none, ring := none,
    shift := none, duration := none }

/-! ## Claims -/

/-- C8: a flag value parses to true iff its text matches one of
"true", "1", "yes" case-insensitively (the code compares the lowercased
text against that set); every other value, the empty string included,
parses to false. -/
theorem C8_flag_parsing (s : String) :
    (parseFlag (some s) = true ↔
      (lowerStr s = "true" ∨ lowerStr s = "1" ∨ lowerStr s = "yes")) ∧
    parseFlag (some "") = false := by
  refine ⟨?_, by decide⟩
  simp [parseFlag, textForm, truthyValues]

/-- C2 counterexample: the claim says no record with an empty (after
whitespace normalization) Description or Category survives the Record
Normalizer; but `dropna` removes only missing values, so the row
`emptyDescRaw` — Description the empty string, Category a single space —
survives normalization unchanged. -/
theorem C2_counterexample :
    normalize [emptyDescRaw] = [convertFlags emptyDescRaw] ∧
    (convertFlags emptyDescRaw).description = some "" ∧
    (convertFlags emptyDescRaw).category = some " " := by
  decide

/-- C2 (amended): after the Record Normalizer, every surviving record
has both flags false and a non-null (non-NaN) Description and Category;
empty or whitespace-only strings are not filtered out. -/
theorem C2_normalizer_invariant (rs : List RawRow) (r : NRow)
    (h : r ∈ normalize rs) :
    r.ignoreEntry = false ∧ r.internalUseOnly = false ∧
    r.description ≠ none ∧ r.category ≠ none := by
  simp only [normalize, List.mem_filter] at h
  obtain ⟨⟨-, hflag⟩, hsome⟩ := h
  simp only [Bool.and_eq_true, Bool.not_eq_true'] at hflag hsome
  exact ⟨hflag.1, hflag.2,
    Option.isSome_iff_ne_none.mp hsome.1, Option.isSome_iff_ne_none.mp hsome.2⟩

/-- C2 witness: the amended invariant instantiated on a concrete
surviving record. -/
theorem C2_witness :
    (convertFlags sampleRaw).ignoreEntry = false ∧
    (convertFlags sampleRaw).internalUseOnly = false ∧
    (convertFlags sampleRaw).description ≠ none ∧
    (convertFlags sampleRaw).category ≠ none :=
  C2_normalizer_invariant [sampleRaw] (convertFlags sampleRaw) (by decide)

/-- C1, evaluated at the failing input `[sampleRaw, sampleRaw]` (a table
whose row is duplicated in every column): the normalizer keeps both
copies, `drop_duplicates` keeps one, but the merge-indicator complement
is empty — the second copy matches the surviving row in every column, is
tagged `both` rather than `left_only`, and vanishes.  Accepted and
rejected together are then not a permutation of the normalizer's output,
contradicting the claimed multiset identity and the claimed edge-case
behaviour. -/
theorem C1_full_row_duplicate_lost :
    normalize [sampleRaw, sampleRaw] =
      [convertFlags sampleRaw, convertFlags sampleRaw] ∧
    drop_duplicates (normalize [sampleRaw, sampleRaw]) =
      [convertFlags sampleRaw] ∧
    filteredOutOf (normalize [sampleRaw, sampleRaw])
      (drop_duplicates (normalize [sampleRaw, sampleRaw])) = [] ∧
    ¬ (drop_duplicates (normalize [sampleRaw, sampleRaw]) ++
        filteredOutOf (normalize [sampleRaw, sampleRaw])
          (drop_duplicates (normalize [sampleRaw, sampleRaw]))).Perm
        (normalize [sampleRaw, sampleRaw]) := by
  refine ⟨by decide, by decide, by decide, fun h => absurd h.length_eq (by decide)⟩

/-! ### Deduplication lemmas shared by the category-pruner claim -/

theorem mem_of_mem_dedupAux {r : NRow} :
    ∀ (l : List NRow) (seen : List DedupKey), r ∈ dedupAux seen l → r ∈ l := by
  intro l
  induction l with
  | nil => intro seen h; simp [dedupAux] at h
  | cons a t ih =>
    intro seen h
    by_cases hk : dedupKey a ∈ seen
    · simp only [dedupAux, if_pos hk] at h
      exact List.mem_cons_of_mem a (ih seen h)
    · simp only [dedupAux, if_neg hk] at h
      rcases List.mem_cons.mp h with h1 | h2
      · exact h1 ▸ List.mem_cons_self a t
      · exact List.mem_cons_of_mem a (ih _ h2)

/-- Every row of the dedup input either has its key in `seen` or shares
its key with a surviving row. -/
theorem dedupAux_key_covered {r : NRow} :
    ∀ (l : List NRow) (seen : List DedupKey), r ∈ l →
      dedupKey r ∈ seen ∨
        ∃ r', r' ∈ dedupAux seen l ∧ dedupKey r' = dedupKey r := by
  intro l
  induction l with
  | nil => intro seen h; simp at h
  | cons a t ih =>
    intro seen h
    rcases List.mem_cons.mp h with rfl | hmem
    · by_cases hk : dedupKey r ∈ seen
      · exact Or.inl hk
      · exact Or.inr ⟨r, by simp [dedupAux, hk], rfl⟩
    · by_cases hk : dedupKey a ∈ seen
      · rcases ih seen hmem with h1 | ⟨r', hr', hkey⟩
        · exact Or.inl h1
        · exact Or.inr ⟨r', by simpa [dedupAux, hk] using hr', hkey⟩
      · rcases ih (dedupKey a :: seen) hmem with h1 | ⟨r', hr', hkey⟩
        · rcases List.mem_cons.mp h1 with heq | hseen
          · exact Or.inr ⟨a, by simp [dedupAux, hk], heq.symm⟩
          · exact Or.inl hseen
        · exact Or.inr ⟨r', by simp [dedupAux, hk, Or.inr hr'], hkey⟩

theorem category_eq_of_dedupKey_eq {r r' : NRow}
    (h : dedupKey r' = dedupKey r) : r'.category = r.category := by
  simp only [dedupKey, Prod.mk.injEq] at h
  exact h.2.2.2.1

theorem mem_distinctCategories {rows : List NRow} {c : Cell} :
    c ∈ distinctCategories rows ↔ ∃ r, r ∈ rows ∧ r.category = c := by
  simp [distinctCategories, List.mem_dedup, List.mem_map]

/-- `drop_duplicates` preserves the distinct-category set: the composite
key contains `Category`, so every dropped row shares its category with a
surviving one. -/
theorem distinctCategories_drop_duplicates (n : List NRow) (c : Cell) :
    c ∈ distinctCategories (drop_duplicates n) ↔ c ∈ distinctCategories n := by
  rw [mem_distinctCategories, mem_distinctCategories]
  constructor
  · rintro ⟨r, hr, rfl⟩
    exact ⟨r, mem_of_mem_dedupAux n [] hr, rfl⟩
  · rintro ⟨r, hr, rfl⟩
    rcases dedupAux_key_covered n [] hr with h | ⟨r', hr', hkey⟩
    · simp at h
    · exact ⟨r', hr', category_eq_of_dedupKey_eq hkey⟩

/-- C3: on the deduplicated set the pruner's input receives, `retained`
is exactly the distinct categories of count at least 2 and `removed`
exactly those of count below 2 — both drawn from the normalizer-stage
category set, which deduplication preserves; the two lists appended are
duplicate-free (so they are disjoint and cover each category exactly
once); and every record surviving the pruner has a category of count at
least 2. -/
theorem C3_category_pruner (raw : List RawRow) :
    (∀ c, c ∈ valid_classes (drop_duplicates (normalize raw)) ↔
      (c ∈ distinctCategories (normalize raw) ∧
        2 ≤ catCount (drop_duplicates (normalize raw)) c)) ∧
    (∀ c, c ∈ filtered_out_classes (drop_duplicates (normalize raw)) ↔
      (c ∈ distinctCategories (normalize raw) ∧
        catCount (drop_duplicates (normalize raw)) c < 2)) ∧
    (valid_classes (drop_duplicates (normalize raw)) ++
      filtered_out_classes (drop_duplicates (normalize raw))).Nodup ∧
    (∀ r, r ∈ pruneCategories (drop_duplicates (normalize raw)) →
      2 ≤ catCount (drop_duplicates (normalize raw)) r.category) := by
  have hval : ∀ c, c ∈ valid_classes (drop_duplicates (normalize raw)) ↔
      (c ∈ distinctCategories (normalize raw) ∧
        2 ≤ catCount (drop_duplicates (normalize raw)) c) := by
    intro c
    rw [valid_classes, List.mem_filter,
      ← distinctCategories_drop_duplicates (normalize raw) c]
    simp
  have hrem : ∀ c, c ∈ filtered_out_classes (drop_duplicates (normalize raw)) ↔
      (c ∈ distinctCategories (normalize raw) ∧
        catCount (drop_duplicates (normalize raw)) c < 2) := by
    intro c
    rw [filtered_out_classes, List.mem_filter,
      ← distinctCategories_drop_duplicates (normalize raw) c]
    simp
  refine ⟨hval, hrem, ?_, ?_⟩
  · rw [List.nodup_append]
    refine ⟨List.Nodup.filter _ (List.nodup_dedup _),
      List.Nodup.filter _ (List.nodup_dedup _), ?_⟩
    intro c hc hc'
    have h1 := (hval c).mp hc
    have h2 := (hrem c).mp hc'
    omega
  · intro r hr
    rw [pruneCategories, List.mem_filter] at hr
    have := (hval r.category).mp (by simpa using hr.2)
    exact this.2

/-- C3 witness: on a concrete table, "Excavation" (two deduplicated
occurrences) is a retained category. -/
theorem C3_witness :
    some "Excavation" ∈
      valid_classes (drop_duplicates (normalize [sampleRaw, sampleRaw2, sampleRawSingle])) :=
  ((C3_category_pruner [sampleRaw, sampleRaw2, sampleRawSingle]).1
    (some "Excavation")).mpr ⟨by decide, by decide⟩

/-! ### Field deriver lemmas -/

theorem dropWhile_nonDigit_eq_nil_iff (l : List Char) :
    l.dropWhile (fun ch => !ch.isDigit) = [] ↔ ∀ ch ∈ l, ch.isDigit = false := by
  induction l with
  | nil => simp
  | cons a t ih =>
    cases ha : a.isDigit <;> simp [List.dropWhile_cons, ha, ih]

theorem firstDigitRun_eq_none_iff (s : String) :
    firstDigitRun s = none ↔ ∀ ch ∈ s.data, ch.isDigit = false := by
  rw [← dropWhile_nonDigit_eq_nil_iff]
  unfold firstDigitRun
  cases h : s.data.dropWhile (fun ch => !ch.isDigit) <;> simp [h]

/-- C4: `Shift_Type` is the leading `Day`/`Night` token of the textual
shift value (the anchored regex tries `Day` first), null exactly when the
text starts with neither; `Duration_min` is the value of the first digit
run of the textual duration, null exactly when the text has no digit;
derivation is a total function that leaves the underlying row intact
(errors are impossible by construction).  The spec's four round-trip
examples evaluate as stated. -/
theorem C4_field_derivation :
    shiftTypeOf "Night Shift - extended" = some "Night" ∧
    shiftTypeOf "Morning" = none ∧
    durationMinOf "approx 45 mins" = some 45 ∧
    durationMinOf "unspecified" = none ∧
    (∀ s, shiftTypeOf s = some "Day" ↔ strStarts "Day" s = true) ∧
    (∀ s, shiftTypeOf s = some "Night" ↔
      (strStarts "Day" s = false ∧ strStarts "Night" s = true)) ∧
    (∀ s, shiftTypeOf s = none ↔
      (strStarts "Day" s = false ∧ strStarts "Night" s = false)) ∧
    (∀ s, durationMinOf s = none ↔ ∀ ch ∈ s.data, ch.isDigit = false) ∧
    (∀ r : NRow, (deriveRow r).toNRow = r) := by
  refine ⟨by decide, by decide, by decide, by decide, ?_, ?_, ?_, ?_, ?_⟩
  · intro s
    cases hd : strStarts "Day" s <;> cases hn : strStarts "Night" s <;>
      simp [shiftTypeOf, hd, hn]
  · intro s
    cases hd : strStarts "Day" s <;> cases hn : strStarts "Night" s <;>
      simp [shiftTypeOf, hd, hn]
  · intro s
    cases hd : strStarts "Day" s <;> cases hn : strStarts "Night" s <;>
      simp [shiftTypeOf, hd, hn]
  · intro s
    rw [durationMinOf, Option.map_eq_none', firstDigitRun_eq_none_iff]
  · intro r
    rfl

/-- C5: the loader accepts the outcome of the first decoder that
succeeds, in the strict order Excel, UTF-8 CSV, Latin-1 CSV — when an
earlier decoder succeeds the result does not depend on the later ones —
and when all three fail it raises the `ValueError` whose message names
the original source URL. -/
theorem C5_loader_priority (t : Table) (e1 e2 e3 : String) (file_url : String) :
    (∀ u l, load_file (.ok t) u l file_url = .ok t) ∧
    (∀ l, load_file (.error e1) (.ok t) l file_url = .ok t) ∧
    load_file (.error e1) (.error e2) (.ok t) file_url = .ok t ∧
    load_file (.error e1) (.error e2) (.error e3) file_url =
      .error ("Unsupported or unreadable file format from: " ++ file_url) :=
  ⟨fun _ _ => rfl, fun _ => rfl, rfl, rfl⟩

/-- If `f` is the first entry satisfying `p` and `f` survives the filter,
then `f` is still the first entry satisfying `p` after the filter. -/
theorem find?_filter_of_keep {α} (p q : α → Bool) :
    ∀ (l : List α) (f : α), l.find? p = some f → q f = true →
      (l.filter q).find? p = some f := by
  intro l
  induction l with
  | nil => simp
  | cons a t ih =>
    intro f hf hq
    cases hp : p a
    · rw [List.find?_cons_of_neg _ (by simp [hp])] at hf
      cases hqa : q a
      · rw [List.filter_cons_of_neg (by simp [hqa])]
        exact ih f hf hq
      · rw [List.filter_cons_of_pos hqa, List.find?_cons_of_neg _ (by simp [hp])]
        exact ih f hf hq
    · rw [List.find?_cons_of_pos _ hp] at hf
      obtain rfl : a = f := by simpa using hf
      rw [List.filter_cons_of_pos hq, List.find?_cons_of_pos _ hp]

/-- C6: retrieving an artifact whose age does not exceed the 600-second
lifetime returns exactly its stored bytes; when every artifact of that
name has age above the lifetime, the retrieval request itself sweeps them
from the directory and reports not-found (`none`) instead of failing. -/
theorem C6_artifact_ttl (dir : List StoredFile) (now : Nat)
    (filename : String) (f : StoredFile) :
    (dir.find? (fun g => decide (g.name = filename)) = some f →
      now - f.mtime ≤ FILE_LIFETIME_SECONDS →
      download_file now filename dir = (some f.content, cleanup_old_files now dir)) ∧
    ((∀ g ∈ dir, g.name = filename → FILE_LIFETIME_SECONDS < now - g.mtime) →
      download_file now filename dir = (none, cleanup_old_files now dir) ∧
      ∀ g ∈ cleanup_old_files now dir, g.name ≠ filename) := by
  constructor
  · intro hf hfresh
    have hq : (fun g : StoredFile =>
        !(decide (FILE_LIFETIME_SECONDS < now - g.mtime))) f = true := by
      simp only [Bool.not_eq_true', decide_eq_false_iff_not]
      omega
    have hfind := find?_filter_of_keep
      (fun g => decide (g.name = filename))
      (fun g : StoredFile => !(decide (FILE_LIFETIME_SECONDS < now - g.mtime)))
      dir f hf hq
    simp only [download_file, cleanup_old_files] at hfind ⊢
    rw [hfind]
  · intro hstale
    have hnone : ∀ g ∈ cleanup_old_files now dir, g.name ≠ filename := by
      intro g hg heq
      rw [cleanup_old_files, List.mem_filter] at hg
      have hkeep := hg.2
      simp only [Bool.not_eq_true', decide_eq_false_iff_not] at hkeep
      exact hkeep (hstale g hg.1 heq)
    have hfind : (cleanup_old_files now dir).find?
        (fun g => decide (g.name = filename)) = none := by
      rw [List.find?_eq_none]
      intro g hg
      simpa using hnone g hg
    refine ⟨?_, hnone⟩
    simp only [download_file]
    rw [hfind]

/-- A fresh stored artifact (age 100 seconds at retrieval time). -/
def freshFile : StoredFile := ⟨"abc_cleaned.csv", 900, [239, 187, 65]⟩

/-- A stale stored artifact (age 1000 seconds at retrieval time). -/
def staleFile : StoredFile := ⟨"old_filtered.csv", 0, [9]⟩

/-- C6 witness: at time 1000, the fresh artifact is served byte-exactly
while the stale one has been swept and reports not-found. -/
theorem C6_witness :
    download_file 1000 "abc_cleaned.csv" [staleFile, freshFile] =
      (some [239, 187, 65], [freshFile]) ∧
    download_file 1000 "old_filtered.csv" [staleFile, freshFile] =
      (none, [freshFile]) := by
  constructor
  · have h := (C6_artifact_ttl [staleFile, freshFile] 1000
      "abc_cleaned.csv" freshFile).1 (by decide) (by decide)
    rw [h]
    decide
  · have h := ((C6_artifact_ttl [staleFile, freshFile] 1000
      "old_filtered.csv" freshFile).2 (by decide)).1
    rw [h]
    decide

/-- C7: when a required column is missing, the request fails with the
`ValueError` naming the missing columns before any row is processed (the
response does not depend on the rows at all), the caller receives the
structured error payload carrying the input identifier and the
diagnostic instead of a crash, no cleaned output is returned, and the
scratch store is untouched; a load error is surfaced the same way. -/
theorem C7_missing_columns (file_path : String) (cols : List String)
    (rows rows' : List RawRow) (store : List Artifact) (e : String) :
    (missingColsOf cols ≠ [] →
      run_tool file_path (.ok ⟨cols, rows⟩) store =
        (.err "Failed to process file." file_path
          (missingColsMsg (missingColsOf cols)), store)) ∧
    (missingColsOf cols ≠ [] →
      run_tool file_path (.ok ⟨cols, rows⟩) store =
        run_tool file_path (.ok ⟨cols, rows'⟩) store) ∧
    run_tool file_path (.error e) store =
      (.err "Failed to process file." file_path e, store) := by
  refine ⟨?_, ?_, rfl⟩
  · intro h
    simp [run_tool, process_site_diary, h]
  · intro h
    simp [run_tool, process_site_diary, h]

/-- C7 witness: a table offering only a `Description` column is rejected
with the structured payload naming the other eight required columns. -/
theorem C7_witness :
    run_tool "http://host/diary.csv" (.ok ⟨["Description"], []⟩) [] =
      (.err "Failed to process file." "http://host/diary.csv"
        (missingColsMsg (missingColsOf ["Description"])), []) :=
  (C7_missing_columns "http://host/diary.csv" ["Description"] [] [] [] "").1
    (by decide)

/-- C10: on every failing path — load failure or missing required
columns — the pipeline returns the scratch store unchanged: the two
artifact writes happen only after every transformation has completed on
the success path. -/
theorem C10_no_artifacts_on_error (loadRes : Except String Table)
    (store : List Artifact)
    (h : ∃ e, (process_site_diary loadRes store).1 = Except.error e) :
    (process_site_diary loadRes store).2 = store := by
  rcases loadRes with e | t
  · rfl
  · by_cases hm : missingColsOf t.cols = []
    · exfalso
      rcases h with ⟨e, he⟩
      simp [process_site_diary, hm] at he
    · simp [process_site_diary, hm]

/-- C10 witness: a failed fetch leaves the (empty) scratch store empty. -/
theorem C10_witness : (process_site_diary (.error "boom") []).2 = [] :=
  C10_no_artifacts_on_error (.error "boom") [] ⟨"boom", rfl⟩

/-- A key-duplicate of `sampleRaw2` (same five key columns) differing in
`Shift` and `Duration`, so it lands in the dedup complement. -/
def sampleRaw2b : RawRow :=
  { ignoreEntry := some "No", internalUseOnly := some "",
    description := some "dig face", category := some "Excavation",
    fromTime := some "09:00", untilTime := some "10:00",
    ring := some "R1", shift := some "Day", duration := some "45" }

/-- A concrete well-formed input table on which the pipeline succeeds and
writes both artifacts. -/
def t9 : Table :=
  ⟨required_cols, [sampleRaw, sampleRaw2, sampleRaw2b, sampleRawSingle]⟩

/-- C9, evaluated at the failing input `t9`: the pipeline writes the two
delimited-text artifacts, but (1) only the cleaned artifact's header row
carries the derived `Shift_Type`/`Duration_min` names — the filtered one
was serialized from `filtered_out_df`, computed before derivation, so its
header is the nine original columns only; and (2) both artifacts begin
with the plain character `I` of "Ignore Entry", not a byte-order mark:
`to_csv` called without a path returns a `str`, its
`encoding="utf-8-sig"` argument is ignored, and `.encode()` emits plain
UTF-8, whose first bytes are those of `I`, not `EF BB BF`. -/
theorem C9_artifact_format_eval :
    ((process_site_diary (.ok t9) []).2.map (fun a => a.suffix) =
      ["cleaned", "filtered"]) ∧
    ((process_site_diary (.ok t9) []).2.map
        (fun a => a.content.data.takeWhile (fun ch => !(ch = '\n'))) =
      [("Ignore Entry,Internal Use Only,Description,Category,From," ++
          "Until,Ring,Shift,Duration,Shift_Type,Duration_min").data,
       ("Ignore Entry,Internal Use Only,Description,Category,From," ++
          "Until,Ring,Shift,Duration").data]) ∧
    (∀ a ∈ (process_site_diary (.ok t9) []).2,
      a.content.data.head? = some 'I') ∧
    'I' ≠ '\uFEFF' := by
  decide

end SiteDiary
